import Mathlib

/-!
Verification development for the `snotel_data` repository
(`src/get_snotel_shef.py`), a single-script pipeline that scrapes SNOTEL
observations, encodes them as SHEF bulletin (or csv) snapshots, diffs the
new snapshot against the previous run's snapshot, deduplicates the
published delta, and promotes the new snapshot to become the next
baseline.

Files are modelled at line granularity: a file's content is the
`List String` of the lines `readlines()` would return.  Python sets are
modelled as `Finset String` (they are used only through membership and
insertion).  Python exceptions that the script can raise on the modelled
paths are the constructors of `RunError`.
-/

namespace Snotel

/-- Python errors reachable on the modelled code paths.
`unboundLocal` models `UnboundLocalError`/`NameError` (reading a local
variable that no branch assigned), `typeError` models `TypeError`
(e.g. `str.join` applied to a non-string element), `valueError` models
`ValueError` (e.g. `pd.concat` of an empty list of frames). -/
inductive RunError where
  | unboundLocal
  | typeError
  | valueError
deriving Repr, DecidableEq

/-- Line 40: `out_fmt = "shef"  # csv or shef`. -/
def out_fmt : String := "shef"

/-- Line 42: `max_call_ids = 95`. -/
def max_call_ids : Nat := 95

/-- Line 43: `code_dict = {'PREC':'PC','TOBS':'TA','WTEQ':'SW','SNWD':'SD'}`;
`code_dict.get` returns `None` for any other key, modelled by `none`. -/
def code_dict (c : String) : Option String :=
  if c = "PREC" then some "PC"
  else if c = "TOBS" then some "TA"
  else if c = "WTEQ" then some "SW"
  else if c = "SNWD" then some "SD"
  else none

/-- Line 44: `type_source = 'RB'`. -/
def type_source : String := "RB"

/-- Line 45: `product_id = 'snotelWeb'`. -/
def product_id : String := "snotelWeb"

/-- Lines 158-162 of `write_new_lines`: the number of header rows skipped
for each format.  For a format that is neither `csv` nor `shef` the Python
local `start_row` is never assigned (`none`), and reading it raises. -/
def start_row (fmt : String) : Option Nat :=
  if fmt = "csv" then some 1
  else if fmt = "shef" then some 2
  else none

/-- Lines 164-171 of `write_new_lines`: drop the `k` header rows from both
files, build `set_last = set(last_lines)`, and keep
`[x for x in new_lines if x not in set_last]` in original order. -/
def snapshot_diff (k : Nat) (lastFile newFile : List String) : List String :=
  let new_lines := newFile.drop k
  let last_lines := lastFile.drop k
  let set_last : Finset String := last_lines.toFinset
  new_lines.filter (fun x => decide (x ∉ set_last))

/-- Lines 154-180, `write_new_lines(last_fullfn, new_fullfn, out_fullfn,
out_fmt)`: returns `.ok (some diff)` when `len(diff) > 1` (the kept lines
are appended to the output file), `.ok none` when `len(diff) <= 1` (the
output file is deleted), and `.error .unboundLocal` when the format is
unsupported (the local `start_row` was never assigned and line 166
raises). -/
def write_new_lines (fmt : String) (lastFile newFile : List String) :
    Except RunError (Option (List String)) :=
  match start_row fmt with
  | none => Except.error RunError.unboundLocal
  | some k =>
    let diff := snapshot_diff k lastFile newFile
    if diff.length > 1 then Except.ok (some diff) else Except.ok none

/-- Lines 182-200, `write_header`: the header lines written for each
format.  For `shef` two lines (`TTAA00 KPTR <ddHHMM>` and the product id),
for `csv` the comma-joined column names, and for any other format the
file is opened and closed with nothing written. -/
def write_header_lines (fmt : String) (ddhhmm : String)
    (csvHeader : List String) : List String :=
  if fmt = "shef" then ["TTAA00 KPTR " ++ ddhhmm, product_id]
  else if fmt = "csv" then [String.intercalate "," csvHeader]
  else []

/-- Lines 210-215 of `remove_dup_lines`: the loop body, carrying the
`lines_seen` set; a line is written iff it is not yet in the set, and is
then added. -/
def remove_dup_lines_go (seen : Finset String) : List String → List String
  | [] => []
  | line :: rest =>
    if line ∈ seen then remove_dup_lines_go seen rest
    else line :: remove_dup_lines_go (insert line seen) rest

/-- Lines 202-218, `remove_dup_lines`: rewrite the file keeping only the
first occurrence of each line (`lines_seen` starts empty). -/
def remove_dup_lines (lines : List String) : List String :=
  remove_dup_lines_go ∅ lines

/-- Reference form of first-occurrence deduplication: keep the head and
recursively deduplicate the tail with all copies of the head removed.
Used to show `remove_dup_lines` keeps exactly the first occurrences. -/
def keepFirsts : List String → List String
  | [] => []
  | x :: xs => x :: keepFirsts (xs.filter (fun y => decide (y ≠ x)))
termination_by l => l.length
decreasing_by
  simp only [List.length_cons]
  exact Nat.lt_succ_of_le (List.length_filter_le _ _)

/-- Lines 230-232 of `main`: `for i in range(0, len(df), max_call_ids):
subset_df = df.iloc[i:(i + max_call_ids)]`, i.e. consecutive slices of at
most `limit` rows.  The Python loop is only ever run with
`limit = max_call_ids = 95 > 0`; `range` with step 0 would raise, so
`limit = 0` is outside the modelled domain (the model returns `[]`). -/
def batch {α : Type} (l : List α) (limit : Nat) : List (List α) :=
  if l.isEmpty || limit == 0 then []
  else l.take limit :: batch (l.drop limit) limit
termination_by l.length
decreasing_by
  rename_i h
  simp only [Bool.or_eq_true, List.isEmpty_iff, beq_iff_eq, not_or] at h
  simp only [List.length_drop]
  have hl : 0 < l.length := List.length_pos.mpr h.1
  omega

/-- Line 255 of `main`:
`combined_df['utcTime'] = pd.to_datetime(combined_df['date']) -
pd.to_timedelta(combined_df['dataTimeZone'], 'h')`.
Timestamps are modelled as minutes on an absolute time axis; the station
offset is in hours, so subtracting `offsetHours` hours is subtracting
`offsetHours * 60` minutes. -/
def to_utc (localMinutes : Int) (offsetHours : Int) : Int :=
  localMinutes - offsetHours * 60

/-- Adding a number of hours to a timestamp in minutes. -/
def add_hours (t : Int) (h : Int) : Int := t + h * 60

/-- A UTC wall-clock instant as used by the `strftime` calls on line 288
(`%Y%m%d` and `%H%M`). -/
structure UtcTime where
  year : Nat
  month : Nat
  day : Nat
  hour : Nat
  minute : Nat
deriving Repr, DecidableEq

/-- Two-digit zero padding, as `strftime` does for `%m %d %H %M`. -/
def pad2 (n : Nat) : String :=
  if n < 10 then "0" ++ toString n else toString n

/-- Four-digit zero padding, as `strftime` does for `%Y`. -/
def pad4 (n : Nat) : String :=
  if n < 10 then "000" ++ toString n
  else if n < 100 then "00" ++ toString n
  else if n < 1000 then "0" ++ toString n
  else toString n

/-- `strftime('%Y%m%d')` on line 288. -/
def fmt_Ymd (t : UtcTime) : String := pad4 t.year ++ pad2 t.month ++ pad2 t.day

/-- `strftime("%H%M")` on line 288. -/
def fmt_HM (t : UtcTime) : String := pad2 t.hour ++ pad2 t.minute

/-- Lines 272-275 of `main`: `shef_dur = 'I' if duration == 'HOURLY' else
'D'`. -/
def shef_dur (duration : String) : String :=
  if duration = "HOURLY" then "I" else "D"

/-- One row of `final_df` (line 257: `[shefId, utcTime, PE, value]`).
`PE` is `none` when line 138's `code_dict.get` found no entry for the
element code; `value` holds the `str(value)` rendering from line 289
(`final_df.value.astype(str)`; Python renders `12.3` as `"12.3"`). -/
structure FinalRec where
  shefId : String
  utcTime : UtcTime
  PE : Option String
  value : String
deriving Repr, DecidableEq

/-- Lines 287-289 of `main`: the SHEF body line built for one record when
its physical-element code is present. -/
def shef_line (duration : String) (r : FinalRec) (pe : String) : String :=
  ".AR " ++ r.shefId ++ " " ++ fmt_Ymd r.utcTime ++ " Z DH" ++ fmt_HM r.utcTime
    ++ "/DUE /" ++ pe ++ shef_dur duration ++ type_source ++ "ZZ " ++ r.value

/-- Lines 287-289 for one row of `final_df`: pandas propagates a missing
(`None`) operand through elementwise string concatenation, so a record
with `PE` unset produces a missing entry (`none`) in `out_lines` instead
of a string. -/
def out_line (duration : String) (r : FinalRec) : Option String :=
  r.PE.map (fun pe => shef_line duration r pe)

/-- Line 291: `"\n".join(out_lines)`.  `str.join` raises `TypeError` as
soon as the sequence contains a non-string entry (the `NaN` left by a
missing physical-element code); otherwise the body lines are written. -/
def join_body (ls : List (Option String)) : Except RunError (List String) :=
  if ls.all Option.isSome then Except.ok (ls.filterMap id)
  else Except.error RunError.typeError

/-- Lines 282-291 of `main` (shef branch): encode every row of `final_df`
and join the lines into the body of the new snapshot. -/
def encode_shef_body (duration : String) (recs : List FinalRec) :
    Except RunError (List String) :=
  join_body (recs.map (fun r => out_line duration r))

/-- Line 277 of `main`: the format branch is `if out_fmt == 'csv'`; every
other format string, supported or not, falls into the `else` (shef)
branch. -/
def main_encode_is_csv (fmt : String) : Bool := fmt == "csv"

/-- Lines 220-248 of `main` before and during the network calls: argument
parsing, reading the metadata csv, logging, and the scraping loop.  The
output format is not consulted anywhere in this phase (its first use is
line 262, after scraping), so the phase is format-independent and never
fails because of the configured format. -/
def pre_network_phase (_fmt : String) : Except RunError Unit :=
  Except.ok ()

/-- The observable outcome of the file-handling tail of `main`:
`published` is the content of the timestamped output file in the publish
directory (`none` when no file is left there), `lastAfter` the content of
the `last_snotel_*` baseline file after the run. -/
structure RunOutcome where
  published : Option (List String)
  lastAfter : List String
deriving Repr, DecidableEq

/-- Lines 293-306 of `main`: if the `last` file exists, write a fresh
header to the output file and run `write_new_lines` (which appends the
kept lines, or deletes the output file when they number at most 1);
otherwise copy the whole new snapshot to the output file.  If the output
file still exists, `remove_dup_lines` rewrites it; finally the new
snapshot is copied over the `last` file unconditionally (line 306). -/
def run_step (fmt : String) (lastPrev : Option (List String))
    (newContent : List String) (freshHeader : List String) :
    Except RunError RunOutcome :=
  match lastPrev with
  | some lastContent =>
    match write_new_lines fmt lastContent newContent with
    | Except.error e => Except.error e
    | Except.ok (some diff) =>
      Except.ok ⟨some (remove_dup_lines (freshHeader ++ diff)), newContent⟩
    | Except.ok none =>
      Except.ok ⟨none, newContent⟩
  | none =>
    Except.ok ⟨some (remove_dup_lines newContent), newContent⟩

/-- One row of the station reference table
`SNOTEL_metadata_2024.csv` as used on lines 241-242. -/
structure MetaRow where
  StationId : String
  StateCode : String
  ShefId : String
deriving Repr, DecidableEq

/-- Line 242: `row_info['StationId'].astype(str) + ':' +
row_info['StateCode'] + ':SNTL'`. -/
def mk_triplet (r : MetaRow) : String :=
  r.StationId ++ ":" ++ r.StateCode ++ ":SNTL"

/-- Lines 130-137 of `get_data`: one frame is built per station object in
the JSON response and `pd.concat(all_gages_li)` raises `ValueError` when
the response contained no station objects (`nFrames = 0`). -/
def get_data_frames (nFrames : Nat) : Except RunError Nat :=
  if nFrames = 0 then Except.error RunError.valueError else Except.ok nFrames

/-- Lines 239-253 of `main`, single-station branch.  `respond` models the
number of station objects the external service returns for the given
triplet list.  If the `try` block raises (for instance `pd.concat` with
no frames), the bare `except` logs `'improper character length for LID'`
and falls through with `all_data_df` never assigned; line 253
(`combined_df = all_data_df.merge(all_meta_df)`) then raises
`UnboundLocalError`, which nothing catches.  On success the run proceeds
to the output phase (continuation abstracted as `.ok ()`). -/
def main_single (meta : List MetaRow) (locid : String)
    (respond : List String → Nat) : Except RunError Unit :=
  let row_info := meta.filter (fun r => r.ShefId == locid)
  let triplet_str := row_info.map mk_triplet
  match get_data_frames (respond triplet_str) with
  | Except.error _ => Except.error RunError.unboundLocal
  | Except.ok _ => Except.ok ()

/-! ## Helper lemmas -/

/-- The set-membership comprehension of lines 170-171 is an
order-preserving filter of the new body by non-membership in the last
body. -/
theorem snapshot_diff_eq_filter (k : Nat) (lastFile newFile : List String) :
    snapshot_diff k lastFile newFile =
      (newFile.drop k).filter (fun x => !((lastFile.drop k).contains x)) := by
  unfold snapshot_diff
  apply List.filter_congr
  intro x _
  simp [List.mem_toFinset, List.elem_iff]

/-- Diffing a file against an identical copy of itself keeps nothing. -/
theorem snapshot_diff_self (k : Nat) (l : List String) :
    snapshot_diff k l l = [] := by
  rw [snapshot_diff_eq_filter]
  rw [List.filter_eq_nil_iff]
  intro a ha
  simp [List.elem_iff, ha]

/-- A line present in the baseline body is never kept by the differ. -/
theorem not_mem_snapshot_diff (k : Nat) (lastFile newFile : List String)
    (L : String) (hL : L ∈ lastFile.drop k) :
    L ∉ snapshot_diff k lastFile newFile := by
  rw [snapshot_diff_eq_filter]
  intro hmem
  have h2 := List.of_mem_filter hmem
  simp [List.elem_iff] at h2
  exact h2 hL

/-- Every kept line comes from the new file's body. -/
theorem mem_snapshot_diff_new (k : Nat) (lastFile newFile : List String)
    (L : String) (hL : L ∈ snapshot_diff k lastFile newFile) :
    L ∈ newFile.drop k := by
  rw [snapshot_diff_eq_filter] at hL
  exact List.mem_of_mem_filter hL

theorem batch_nil {α : Type} (limit : Nat) : batch ([] : List α) limit = [] := by
  rw [batch]
  simp

theorem batch_unfold_pos {α : Type} (l : List α) (limit : Nat)
    (h0 : 0 < limit) (hl : l ≠ []) :
    batch l limit = l.take limit :: batch (l.drop limit) limit := by
  rw [batch]
  simp [hl, Nat.pos_iff_ne_zero.mp h0]

/-- The chunking loop of lines 230-232: concatenating the slices restores
the input and every slice has at most `limit` elements. -/
theorem batch_spec {α : Type} (limit : Nat) (h0 : 0 < limit) :
    ∀ (n : Nat) (l : List α), l.length ≤ n →
      (batch l limit).flatten = l ∧ ∀ b ∈ batch l limit, b.length ≤ limit := by
  intro n
  induction n with
  | zero =>
    intro l hl
    have hnil : l = [] := List.length_eq_zero.mp (Nat.le_zero.mp hl)
    subst hnil
    rw [batch_nil]
    simp
  | succ n ih =>
    intro l hl
    rcases eq_or_ne l [] with rfl | hne
    · rw [batch_nil]; simp
    · rw [batch_unfold_pos l limit h0 hne]
      have hpos : 0 < l.length := List.length_pos.mpr hne
      have hdrop : (l.drop limit).length ≤ n := by
        rw [List.length_drop]
        omega
      obtain ⟨h1, h2⟩ := ih (l.drop limit) hdrop
      refine ⟨?_, ?_⟩
      · simp only [List.flatten_cons, h1, List.take_append_drop]
      · intro b hb
        rcases List.mem_cons.mp hb with rfl | hb
        · exact List.length_take_le _ _
        · exact h2 b hb

theorem keepFirsts_cons (x : String) (xs : List String) :
    keepFirsts (x :: xs) = x :: keepFirsts (xs.filter (fun y => decide (y ≠ x))) := by
  simp [keepFirsts]

/-- The seen-set loop of `remove_dup_lines` computes `keepFirsts` of the
lines not yet seen. -/
theorem go_eq_keepFirsts (l : List String) :
    ∀ seen : Finset String,
      remove_dup_lines_go seen l = keepFirsts (l.filter (fun x => decide (x ∉ seen))) := by
  induction l with
  | nil => intro seen; simp [remove_dup_lines_go, keepFirsts]
  | cons x xs ih =>
    intro seen
    by_cases hx : x ∈ seen
    · rw [remove_dup_lines_go]
      simp only [hx, if_true]
      rw [ih seen]
      congr 1
      rw [List.filter_cons]
      simp [hx]
    · rw [remove_dup_lines_go]
      simp only [hx, if_false]
      rw [ih (insert x seen)]
      have hcond : decide (x ∉ seen) = true := by simp [hx]
      rw [List.filter_cons, if_pos hcond]
      rw [keepFirsts_cons]
      congr 1
      rw [List.filter_filter]
      congr 1
      apply List.filter_congr
      intro y _
      by_cases hyx : y = x
      · subst hyx
        simp [Finset.mem_insert]
      · by_cases hys : y ∈ seen <;> simp [Finset.mem_insert, hyx, hys]

/-- `remove_dup_lines` is exactly the first-occurrence deduplication. -/
theorem remove_dup_lines_eq_keepFirsts (l : List String) :
    remove_dup_lines l = keepFirsts l := by
  unfold remove_dup_lines
  rw [go_eq_keepFirsts]
  congr 1
  apply List.filter_eq_self.mpr
  intro a _
  simp

theorem keepFirsts_sublist : ∀ (n : Nat) (l : List String), l.length ≤ n →
    (keepFirsts l).Sublist l := by
  intro n
  induction n with
  | zero =>
    intro l hl
    have hnil : l = [] := List.length_eq_zero.mp (Nat.le_zero.mp hl)
    subst hnil
    simp [keepFirsts]
  | succ n ih =>
    intro l hl
    match l with
    | [] => simp [keepFirsts]
    | x :: xs =>
      rw [keepFirsts_cons]
      apply List.Sublist.cons₂
      have h1 : (xs.filter (fun y => decide (y ≠ x))).length ≤ n := by
        have h2 := List.length_filter_le (fun y => decide (y ≠ x)) xs
        simp only [List.length_cons] at hl
        omega
      exact (ih _ h1).trans (List.filter_sublist xs)

theorem mem_keepFirsts : ∀ (n : Nat) (l : List String), l.length ≤ n →
    ∀ y, y ∈ keepFirsts l ↔ y ∈ l := by
  intro n
  induction n with
  | zero =>
    intro l hl
    have hnil : l = [] := List.length_eq_zero.mp (Nat.le_zero.mp hl)
    subst hnil
    simp [keepFirsts]
  | succ n ih =>
    intro l hl y
    match l with
    | [] => simp [keepFirsts]
    | x :: xs =>
      rw [keepFirsts_cons]
      have h1 : (xs.filter (fun y => decide (y ≠ x))).length ≤ n := by
        have h2 := List.length_filter_le (fun y => decide (y ≠ x)) xs
        simp only [List.length_cons] at hl
        omega
      rw [List.mem_cons, ih _ h1 y, List.mem_filter, List.mem_cons]
      by_cases hyx : y = x
      · simp [hyx]
      · simp [hyx]

theorem keepFirsts_nodup : ∀ (n : Nat) (l : List String), l.length ≤ n →
    (keepFirsts l).Nodup := by
  intro n
  induction n with
  | zero =>
    intro l hl
    have hnil : l = [] := List.length_eq_zero.mp (Nat.le_zero.mp hl)
    subst hnil
    simp [keepFirsts]
  | succ n ih =>
    intro l hl
    match l with
    | [] => simp [keepFirsts]
    | x :: xs =>
      rw [keepFirsts_cons]
      have h1 : (xs.filter (fun y => decide (y ≠ x))).length ≤ n := by
        have h2 := List.length_filter_le (fun y => decide (y ≠ x)) xs
        simp only [List.length_cons] at hl
        omega
      rw [List.nodup_cons]
      refine ⟨?_, ih _ h1⟩
      intro hx
      rw [mem_keepFirsts n _ h1 x, List.mem_filter] at hx
      simp at hx

/-- `write_new_lines` for a supported format, expressed through
`snapshot_diff` and the `len(diff) > 1` guard. -/
theorem write_new_lines_eq (fmt : String) (k : Nat) (hk : start_row fmt = some k)
    (lastFile newFile : List String) :
    write_new_lines fmt lastFile newFile =
      (if (snapshot_diff k lastFile newFile).length > 1
       then Except.ok (some (snapshot_diff k lastFile newFile))
       else Except.ok none) := by
  unfold write_new_lines
  rw [hk]

/-- When at most one line is kept, the output file is deleted and the run
publishes nothing; the baseline still becomes the new snapshot. -/
theorem run_step_discard (fmt : String) (k : Nat) (hk : start_row fmt = some k)
    (lastContent newContent hdr : List String)
    (hle : (snapshot_diff k lastContent newContent).length ≤ 1) :
    run_step fmt (some lastContent) newContent hdr = Except.ok ⟨none, newContent⟩ := by
  simp only [run_step]
  rw [write_new_lines_eq fmt k hk]
  rw [if_neg (by omega)]

/-- When more than one line is kept, the kept lines are appended to the
freshly headered output file, which is then deduplicated in place. -/
theorem run_step_publish (fmt : String) (k : Nat) (hk : start_row fmt = some k)
    (lastContent newContent hdr : List String)
    (hgt : 1 < (snapshot_diff k lastContent newContent).length) :
    run_step fmt (some lastContent) newContent hdr =
      Except.ok ⟨some (remove_dup_lines (hdr ++ snapshot_diff k lastContent newContent)),
                 newContent⟩ := by
  simp only [run_step]
  rw [write_new_lines_eq fmt k hk]
  rw [if_pos (by omega)]

/-- Line 306: whenever the tail of `main` completes, the `last` file holds
the new snapshot's full content, on every branch. -/
theorem run_step_last_overwritten (fmt : String) (lastPrev : Option (List String))
    (newContent hdr : List String) (oc : RunOutcome)
    (h : run_step fmt lastPrev newContent hdr = Except.ok oc) :
    oc.lastAfter = newContent := by
  unfold run_step at h
  match lastPrev with
  | none =>
    simp only at h
    cases h
    rfl
  | some lastContent =>
    simp only at h
    cases hw : write_new_lines fmt lastContent newContent with
    | error e => rw [hw] at h; cases h
    | ok o =>
      rw [hw] at h
      cases o with
      | none => cases h; rfl
      | some diff => cases h; rfl

/-! ## Claim theorems -/

/-- C1: for every pair of snapshot files in the same format, the delta
body produced by the differ equals exactly those lines of the new file's
body (after the fixed header count: 1 for csv, 2 for shef) that are not
textually members of the set of the last file's body lines, kept in their
original order; in particular baseline body `[A, B]` against new body
`[A, B, C, D]` yields `[C, D]` in that order. -/
theorem C1_delta_is_new_body_minus_last_set :
    (start_row "csv" = some 1 ∧ start_row "shef" = some 2)
  ∧ (∀ (k : Nat) (lastFile newFile : List String),
      snapshot_diff k lastFile newFile =
        (newFile.drop k).filter (fun x => !((lastFile.drop k).contains x)))
  ∧ snapshot_diff 2 ["TTAA00 KPTR 010100", "snotelWeb", "A", "B"]
      ["TTAA00 KPTR 020100", "snotelWeb", "A", "B", "C", "D"] = ["C", "D"] := by
  refine ⟨⟨rfl, rfl⟩, snapshot_diff_eq_filter, by decide⟩

/-- C2: when a baseline exists and the kept-line count is at most 1, no
delta file is published (the already-created output file is deleted and
nothing is appended); diffing a snapshot against an identical copy of
itself keeps nothing and publishes nothing; only with more than one kept
line are the kept lines appended to the delta output. -/
theorem C2_small_delta_discarded (fmt : String) (k : Nat)
    (hk : start_row fmt = some k) (lastContent newContent hdr : List String) :
    ((snapshot_diff k lastContent newContent).length ≤ 1 →
        run_step fmt (some lastContent) newContent hdr = Except.ok ⟨none, newContent⟩)
  ∧ (snapshot_diff k newContent newContent = []
        ∧ run_step fmt (some newContent) newContent hdr = Except.ok ⟨none, newContent⟩)
  ∧ (1 < (snapshot_diff k lastContent newContent).length →
        run_step fmt (some lastContent) newContent hdr =
          Except.ok ⟨some (remove_dup_lines (hdr ++ snapshot_diff k lastContent newContent)),
                     newContent⟩) := by
  refine ⟨?_, ⟨snapshot_diff_self k newContent, ?_⟩, ?_⟩
  · intro hle
    exact run_step_discard fmt k hk lastContent newContent hdr hle
  · apply run_step_discard fmt k hk
    rw [snapshot_diff_self]
    simp
  · intro hgt
    exact run_step_publish fmt k hk lastContent newContent hdr hgt

/-- Witness for C2 on a concrete run whose diff keeps exactly one line. -/
theorem C2_witness :
    run_step "shef" (some ["h1", "h2", "A", "B"]) ["h1", "h2", "A", "B", "C"] ["H1", "H2"]
      = Except.ok ⟨none, ["h1", "h2", "A", "B", "C"]⟩ :=
  (C2_small_delta_discarded "shef" 2 rfl ["h1", "h2", "A", "B"]
    ["h1", "h2", "A", "B", "C"] ["H1", "H2"]).1 (by decide)

/-- C3: for every ordered station list and every positive batch limit, the
batcher cuts the list into consecutive groups of length at most the
limit whose in-order concatenation restores the input exactly once; the
empty list yields no batches. -/
theorem C3_batching_partitions (l : List String) (limit : Nat) (h : 0 < limit) :
    (batch l limit).flatten = l
  ∧ (∀ b ∈ batch l limit, b.length ≤ limit)
  ∧ batch ([] : List String) limit = [] := by
  obtain ⟨h1, h2⟩ := batch_spec limit h l.length l (le_refl _)
  exact ⟨h1, h2, batch_nil limit⟩

/-- Witness for C3 on a concrete three-station list with limit 2. -/
theorem C3_witness :
    (batch ["s1", "s2", "s3"] 2).flatten = ["s1", "s2", "s3"] :=
  (C3_batching_partitions ["s1", "s2", "s3"] 2 (by decide)).1

/-- C4: each normalized record with a present physical-element code is
encoded as `.AR <publishId> <YYYYMMDD> Z DH<HHMM>/DUE /<PE><durationCode><sourceCode>ZZ <value>`,
with duration code `I` for HOURLY and `D` otherwise and source code `RB`;
in particular `CLJW1`, 2024-11-01 13:00 UTC, element `SW`, HOURLY, value
12.3 encodes to exactly `.AR CLJW1 20241101 Z DH1300/DUE /SWIRBZZ 12.3`. -/
theorem C4_shef_line_encoding :
    (∀ (duration id value : String) (t : UtcTime) (pe : String),
        out_line duration ⟨id, t, some pe, value⟩
          = some (".AR " ++ id ++ " " ++ fmt_Ymd t ++ " Z DH" ++ fmt_HM t ++ "/DUE /"
              ++ pe ++ shef_dur duration ++ type_source ++ "ZZ " ++ value))
  ∧ shef_dur "HOURLY" = "I"
  ∧ (∀ d : String, d ≠ "HOURLY" → shef_dur d = "D")
  ∧ type_source = "RB"
  ∧ out_line "HOURLY" ⟨"CLJW1", ⟨2024, 11, 1, 13, 0⟩, some "SW", "12.3"⟩
      = some ".AR CLJW1 20241101 Z DH1300/DUE /SWIRBZZ 12.3" := by
  refine ⟨fun duration id value t pe => rfl, rfl, ?_, rfl, by decide⟩
  intro d hd
  unfold shef_dur
  rw [if_neg hd]

/-- Witness for C4 discharging the non-HOURLY duration hypothesis. -/
theorem C4_witness : shef_dur "DAILY" = "D" :=
  C4_shef_line_encoding.2.2.1 "DAILY" (by decide)

/-- C5: the normalized UTC timestamp equals the station-local timestamp
minus the station's UTC-offset hours (subtracted, never added), so adding
the offset back restores the local timestamp: `toUtc(t, o) + o = t`. -/
theorem C5_utc_is_local_minus_offset :
    (∀ t o : Int, to_utc t o = t - o * 60)
  ∧ (∀ t o : Int, add_hours (to_utc t o) o = t) := by
  constructor
  · intro t o; rfl
  · intro t o
    unfold to_utc add_hours
    ring

/-- C6: the deduplicator rewrites a line sequence so each distinct line
appears exactly once, keeping the first occurrence and preserving the
relative order of survivors; `[a, b, a, c, b]` yields `[a, b, c]`. -/
theorem C6_dedup_keeps_first_occurrences :
    (∀ l : List String, remove_dup_lines l = keepFirsts l)
  ∧ (∀ l : List String,
        (remove_dup_lines l).Nodup
      ∧ (remove_dup_lines l).Sublist l
      ∧ (∀ x, x ∈ remove_dup_lines l ↔ x ∈ l))
  ∧ remove_dup_lines ["a", "b", "a", "c", "b"] = ["a", "b", "c"] := by
  refine ⟨remove_dup_lines_eq_keepFirsts, ?_, by decide⟩
  intro l
  rw [remove_dup_lines_eq_keepFirsts]
  exact ⟨keepFirsts_nodup l.length l (le_refl _),
         keepFirsts_sublist l.length l (le_refl _),
         mem_keepFirsts l.length l (le_refl _)⟩

/-- C7 (amended): a record whose element code is outside the lookup table
gets an unset physical-element code, and the bulletin encoder never emits
a line containing the unset field; but it does not skip the record
either: the newline-join over the encoded lines fails (a `TypeError` on
the missing entry), aborting the run. -/
theorem C7_unset_pe_aborts_encode (duration : String) (recs : List FinalRec)
    (h : ∃ r ∈ recs, r.PE = none) :
    (∀ c : String, c ≠ "PREC" → c ≠ "TOBS" → c ≠ "WTEQ" → c ≠ "SNWD" → code_dict c = none)
  ∧ (∀ r : FinalRec, r.PE = none → out_line duration r = none)
  ∧ encode_shef_body duration recs = Except.error RunError.typeError := by
  refine ⟨?_, ?_, ?_⟩
  · intro c h1 h2 h3 h4
    unfold code_dict
    rw [if_neg h1, if_neg h2, if_neg h3, if_neg h4]
  · intro r hr
    unfold out_line
    rw [hr]
    rfl
  · obtain ⟨r, hr, hPE⟩ := h
    have hmem : (none : Option String) ∈ recs.map (fun x => out_line duration x) := by
      apply List.mem_map.mpr
      refine ⟨r, hr, ?_⟩
      unfold out_line
      rw [hPE]
      rfl
    have hcond : ¬ ((recs.map (fun x => out_line duration x)).all Option.isSome = true) := by
      intro hall
      have h2 := List.all_eq_true.mp hall _ hmem
      simp at h2
    unfold encode_shef_body join_body
    rw [if_neg hcond]

/-- Counterexample to C7 as stated: with one unknown-element record in the
batch the encoder does not skip it and continue — the whole encoding
aborts with a `TypeError`. -/
theorem C7_counterexample :
    code_dict "SMS" = none
  ∧ encode_shef_body "HOURLY"
      [⟨"CLJW1", ⟨2024, 11, 1, 13, 0⟩, some "SW", "12.3"⟩,
       ⟨"ABCD1", ⟨2024, 11, 1, 13, 0⟩, code_dict "SMS", "5.0"⟩]
      = Except.error RunError.typeError := ⟨rfl, rfl⟩

/-- Witness for C7's amended theorem on a concrete unset-PE record. -/
theorem C7_witness :
    encode_shef_body "DAILY" [⟨"EFGH1", ⟨2024, 12, 2, 7, 30⟩, none, "7.0"⟩]
      = Except.error RunError.typeError :=
  (C7_unset_pe_aborts_encode "DAILY" [⟨"EFGH1", ⟨2024, 12, 2, 7, 30⟩, none, "7.0"⟩]
    ⟨⟨"EFGH1", ⟨2024, 12, 2, 7, 30⟩, none, "7.0"⟩, List.mem_cons_self _ _, rfl⟩).2.2

/-- C8: a single-station selector matching no reference-table row is
caught and logged at the call site, but the run then terminates with an
unhandled `UnboundLocalError` when line 253 reads the never-assigned
`all_data_df` — it does not complete in a degraded state as the claim
says.  The theorem evaluates the model at the failing input. -/
theorem C8_lookup_miss_unbound_local :
    (([⟨"301", "OR", "CLJW1"⟩] : List MetaRow).filter (fun r => r.ShefId == "ZZZZZ") = [])
  ∧ main_single [⟨"301", "OR", "CLJW1"⟩] "ZZZZZ" (fun _ => 0)
      = Except.error RunError.unboundLocal := ⟨rfl, rfl⟩

/-- C9 (amended): the program performs no output-format validation at
all: for any format other than csv and shef, the pre-network phase
succeeds (no UnsupportedFormat failure exists anywhere in the program),
main's encoding branch treats the format as the bulletin path,
`write_header` writes no header lines, and the snapshot-diff step — which
runs only after the network calls — fails with an unbound-local error. -/
theorem C9_no_format_validation (fmt : String) (h1 : fmt ≠ "csv") (h2 : fmt ≠ "shef") :
    pre_network_phase fmt = Except.ok ()
  ∧ main_encode_is_csv fmt = false
  ∧ (∀ (d : String) (hdr : List String), write_header_lines fmt d hdr = [])
  ∧ (∀ lastFile newFile : List String,
        write_new_lines fmt lastFile newFile = Except.error RunError.unboundLocal) := by
  refine ⟨rfl, ?_, ?_, ?_⟩
  · unfold main_encode_is_csv
    exact beq_eq_false_iff_ne.mpr h1
  · intro d hdr
    unfold write_header_lines
    rw [if_neg h2, if_neg h1]
  · intro lastFile newFile
    unfold write_new_lines start_row
    rw [if_neg h1, if_neg h2]

/-- Counterexample to C9 as stated: with format `xml` nothing fails
before the network calls and no UnsupportedFormat error is raised; the
only failure is an unbound-local error inside the post-network diff
step. -/
theorem C9_counterexample :
    pre_network_phase "xml" = Except.ok ()
  ∧ main_encode_is_csv "xml" = false
  ∧ write_header_lines "xml" "011300" ["shefId", "utcTime"] = []
  ∧ write_new_lines "xml" ["a", "b", "c"] ["a", "b", "d"] = Except.error RunError.unboundLocal :=
  ⟨rfl, rfl, rfl, rfl⟩

/-- Witness for C9's amended theorem at the concrete format `json`. -/
theorem C9_witness :
    write_new_lines "json" ["p", "q"] ["p", "r"] = Except.error RunError.unboundLocal :=
  (C9_no_format_validation "json" (by decide) (by decide)).2.2.2 ["p", "q"] ["p", "r"]

/-- C10 (amended): at the end of every run that completes, the
last-snapshot file is overwritten with the new snapshot's full content
unconditionally — including runs whose delta was discarded by the ≤1
guard — so every line suppressed by that guard enters the baseline and is
not published by the immediately following run.  (It can still be
published by a later run if it first disappears from an intervening
snapshot and then reappears.) -/
theorem C10_baseline_promoted_unconditionally (fmt : String) (k : Nat)
    (hk : start_row fmt = some k) :
    (∀ (lastPrev : Option (List String)) (newContent hdr : List String) (oc : RunOutcome),
        run_step fmt lastPrev newContent hdr = Except.ok oc → oc.lastAfter = newContent)
  ∧ (∀ lastContent newContent hdr : List String,
        (snapshot_diff k lastContent newContent).length ≤ 1 →
          run_step fmt (some lastContent) newContent hdr = Except.ok ⟨none, newContent⟩
        ∧ (∀ L ∈ snapshot_diff k lastContent newContent,
              L ∈ newContent.drop k
            ∧ ∀ nextContent : List String, L ∉ snapshot_diff k newContent nextContent)) := by
  refine ⟨run_step_last_overwritten fmt, ?_⟩
  intro lastContent newContent hdr hle
  refine ⟨run_step_discard fmt k hk lastContent newContent hdr hle, ?_⟩
  intro L hL
  have hnew : L ∈ newContent.drop k := mem_snapshot_diff_new k lastContent newContent L hL
  exact ⟨hnew, fun nextContent => not_mem_snapshot_diff k newContent nextContent L hnew⟩

/-- Witness for C10's amended theorem: the suppressed line `Q` enters the
baseline and is absent from the following run's delta. -/
theorem C10_witness :
    run_step "shef" (some ["g1", "g2", "P"]) ["g1", "g2", "P", "Q"] ["K1", "K2"]
      = Except.ok ⟨none, ["g1", "g2", "P", "Q"]⟩
  ∧ "Q" ∈ (["g1", "g2", "P", "Q"] : List String).drop 2
  ∧ "Q" ∉ snapshot_diff 2 ["g1", "g2", "P", "Q"] ["g1", "g2", "Q", "R"] := by
  have h := (C10_baseline_promoted_unconditionally "shef" 2 rfl).2
      ["g1", "g2", "P"] ["g1", "g2", "P", "Q"] ["K1", "K2"] (by decide)
  have h2 := h.2 "Q" (by decide)
  exact ⟨h.1, h2.1, h2.2 ["g1", "g2", "Q", "R"]⟩

/-- Counterexample to C10 as stated ("never published by any subsequent
run"): line `L` is suppressed by the ≤1 guard in run 1, disappears from
the snapshot in run 2 (and hence from the baseline), and is then
published by run 3 when it reappears. -/
theorem C10_counterexample :
    run_step "shef" (some ["h1", "h2", "A"]) ["h1", "h2", "A", "L"] ["H1", "H2"]
      = Except.ok ⟨none, ["h1", "h2", "A", "L"]⟩
  ∧ "L" ∈ snapshot_diff 2 ["h1", "h2", "A"] ["h1", "h2", "A", "L"]
  ∧ run_step "shef" (some ["h1", "h2", "A", "L"]) ["h1", "h2", "A"] ["H3", "H4"]
      = Except.ok ⟨none, ["h1", "h2", "A"]⟩
  ∧ run_step "shef" (some ["h1", "h2", "A"]) ["h1", "h2", "L", "X", "Y"] ["H5", "H6"]
      = Except.ok ⟨some ["H5", "H6", "L", "X", "Y"], ["h1", "h2", "L", "X", "Y"]⟩
  ∧ "L" ∈ (["H5", "H6", "L", "X", "Y"] : List String) :=
  ⟨rfl, by decide, rfl, rfl, by decide⟩

end Snotel
